import Mathlib

/-!
Verification development for the Chakram X controller
(`src/chakram_controller.py`, `src/movement_analyzer.py`,
`src/game_state_detector.py`, `src/mouse_axes.py`, `src/win_input.py`).

Shallow embedding conventions:
* Python floats are modelled as `ℚ`; every comparison the embedded code
  performs is exact rational arithmetic, so all definitions are executable.
* `math.sqrt` and `math.atan2` have no rational closed form.  Wherever the
  source computes a Euclidean norm only to compare it against a threshold,
  the embedding compares the squared norm against the squared threshold
  (both sides are nonnegative, so the comparison is equivalent); such
  fields/functions carry `Sq` in their name.  Wherever the source converts
  a point to a polar angle, the embedding takes the already-normalized
  angle (degrees in `[0,360)`) as an explicit input.
* OS key injection (`win_input`) is modelled as an emitted trace of
  `Event`s; a call that the source assumes to succeed is modelled by its
  success path.
* `chakram_controller.py` defines several methods twice inside the class
  body; Python keeps the later definition, so the embedding follows the
  second copies (the pairs relevant here are behaviourally identical for
  the duplicated helpers, and `update` is embedded from its second,
  effective definition at lines 1245-1497).
-/

namespace Chakram

/-- A single OS-level input action emitted by the controller
(`key_down` / `key_up` / mouse-button events from `win_input`, the
`time.sleep` calls between them, and `move_mouse`).  Mouse buttons are
identified by their key strings (`"middle_mouse"`, `"right_mouse"`),
exactly as `pressed_keys` stores them. -/
inductive Event where
  | keyDown (k : String)
  | keyUp (k : String)
  | sleep (seconds : ℚ)
  | mouseMove (dx dy : ℚ)
deriving DecidableEq, Repr

/-- `True` for press/release events, `False` for sleeps and cursor moves. -/
def Event.isKey : Event → Bool
  | Event.keyDown _ => true
  | Event.keyUp _ => true
  | _ => false

/-- Number of `keyUp k` events in a trace. -/
def countReleases (k : String) (evs : List Event) : ℕ :=
  (evs.filter (fun e => e = Event.keyUp k)).length

/-- Number of `keyDown k` events in a trace. -/
def countPresses (k : String) (evs : List Event) : ℕ :=
  (evs.filter (fun e => e = Event.keyDown k)).length

/-- One entry of the `SECTORS` configuration dict:
`{"start": ..., "end": ...}` (degrees). -/
structure SectorRange where
  startDeg : ℚ
  endDeg : ℚ
deriving DecidableEq, Repr

/-- Configuration constants consumed by the controller
(module `src/config.py`; loaded once at startup). -/
structure Config where
  deadzone : ℚ
  deadzoneTimeThreshold : ℚ
  deadzoneSpeedThreshold : ℚ
  adaptiveEnabled : Bool
  dynamicDeadzoneEnabled : Bool
  dynamicDeadzoneMinFactor : ℚ
  dynamicDeadzoneMaxFactor : ℚ
  predictionEnabled : Bool
  predictionConfidenceThreshold : ℚ
  combatModeDeadzone : ℚ
  gameStateDetectionEnabled : Bool
  sectors : List (String × SectorRange)
  keyMappings : List (String × String)
deriving DecidableEq, Repr

/-- `DEFAULT_SECTORS` from `config.py` (iteration order of the dict). -/
def defaultSectors : List (String × SectorRange) :=
  [("overhead", ⟨225, 315⟩), ("right", ⟨315, 45⟩),
   ("thrust", ⟨45, 135⟩), ("left", ⟨135, 225⟩)]

/-- `DEFAULT_KEY_MAPPINGS` from `config.py`. -/
def defaultKeyMappings : List (String × String) :=
  [("overhead", "up"), ("right", "right"), ("thrust", "down"),
   ("left", "left"), ("cancel", "middle_mouse"), ("alt_mode", "alt")]

/-- The default configuration values of `config.py`. -/
def defaultConfig : Config where
  deadzone := 15/100
  deadzoneTimeThreshold := 5/100
  deadzoneSpeedThreshold := 5/100
  adaptiveEnabled := true
  dynamicDeadzoneEnabled := false
  dynamicDeadzoneMinFactor := 3/2
  dynamicDeadzoneMaxFactor := 3/2
  predictionEnabled := true
  predictionConfidenceThreshold := 3/10
  combatModeDeadzone := 1/10
  gameStateDetectionEnabled := true
  sectors := defaultSectors
  keyMappings := defaultKeyMappings

/-- `KEY_MAPPINGS[name]` (total variant: the source raises `KeyError` on a
missing name, which never happens for the configured sector names). -/
def keyOf (cfg : Config) (name : String) : String :=
  (((cfg.keyMappings.find? (fun p => p.1 = name)).map Prod.snd)).getD ""

/-- The list `[KEY_MAPPINGS[sector] for sector in SECTORS.keys()]`
used by `press_key` to refuse attack keys in alt mode. -/
def attackKeys (cfg : Config) : List String :=
  cfg.sectors.map (fun p => keyOf cfg p.1)

/-- Membership of an angle in one sector range, exactly as every
classification loop in the source tests it: a range whose `start` exceeds
its `end` wraps through 0° and matches iff `angle >= start or angle <= end`;
otherwise it matches iff `start <= angle <= end`. -/
def angleInRange (angle : ℚ) (r : SectorRange) : Bool :=
  if r.startDeg > r.endDeg then
    decide (angle ≥ r.startDeg) || decide (angle ≤ r.endDeg)
  else
    decide (r.startDeg ≤ angle) && decide (angle ≤ r.endDeg)

/-- The `for sector_name, sector_range in SECTORS.items()` scan shared by
`get_current_sector`, `handle_alt_mode`, `MouseAxes._determine_sector` and
`MovementAnalyzer.predict_next_sector`: first matching definition in
configuration order wins, `None` if no range matches. -/
def sectorLookup (sectors : List (String × SectorRange)) (angle : ℚ) :
    Option String :=
  match sectors with
  | [] => none
  | (name, r) :: rest =>
      if angleInRange angle r then some name else sectorLookup rest angle

/-- The classification core shared by the standard path of
`get_current_sector` and by `MouseAxes._determine_sector` once the input is
in polar form: inside the deadzone no sector, otherwise first-match scan. -/
def classify (sectors : List (String × SectorRange))
    (angle distance deadzone : ℚ) : Option String :=
  if distance < deadzone then none else sectorLookup sectors angle

/-- `GameStateDetector.get_optimal_deadzone`: returns the combat value iff
the detector currently reports combat. -/
def getOptimalDeadzone (detectorCombat : Bool)
    (baseDeadzone combatDeadzone : ℚ) : ℚ :=
  if detectorCombat then combatDeadzone else baseDeadzone

/-- `MovementAnalyzer.get_dynamic_deadzone`: three-piece speed policy.
`speed` stands for `self.current_speed`. -/
def getDynamicDeadzone (speed baseDeadzone minFactor maxFactor : ℚ) : ℚ :=
  if speed < 1/2 then
    baseDeadzone * maxFactor
  else if speed > 2 then
    baseDeadzone * minFactor
  else
    let normalizedSpeed := (speed - 1/2) / (3/2)
    let factor := maxFactor - normalizedSpeed * (maxFactor - minFactor)
    baseDeadzone * factor

/-- Mutable controller state (`ChakramController.__init__`), restricted to
the fields the embedded operations read or write.  `detectorCombat` stands
for `game_state_detector.is_in_combat()`, `analyzerSpeed` for
`movement_analyzer.current_speed`, and `deadzoneSpeedSq` stores the square
of `deadzone_speed` (see the header note on `sqrt`). -/
structure Ctrl where
  currentSector : Option String
  currentState : Option String
  pressedKeys : List String
  sectorChangeInProgress : Bool
  lastSectorChangeTime : ℚ
  lastPosition : ℚ × ℚ
  lastPositionTime : ℚ
  inDeadzone : Bool
  deadzoneEntryTime : ℚ
  deadzoneSpeedSq : ℚ
  lastActiveSector : Option String
  altModeActive : Bool
  altModeKeyPressed : Bool
  altModeCurrentSector : Option String
  altModeRightMouseDown : Bool
  combatModeActive : Bool
  predictedSector : Option String
  predictionConfidence : ℚ
  detectorCombat : Bool
  analyzerSpeed : ℚ
  lastUpdateTime : ℚ
deriving DecidableEq, Repr

/-- `ChakramController.get_effective_deadzone` (single definition in the
class; reads the config toggles and the controller/detector/analyzer
state). -/
def getEffectiveDeadzone (cfg : Config) (c : Ctrl) : ℚ :=
  if ¬cfg.adaptiveEnabled ∨ ¬cfg.dynamicDeadzoneEnabled then
    cfg.deadzone
  else
    let base := cfg.deadzone
    let base := if c.combatModeActive then cfg.combatModeDeadzone else base
    let base :=
      if cfg.gameStateDetectionEnabled then
        getOptimalDeadzone c.detectorCombat base cfg.combatModeDeadzone
      else base
    if cfg.dynamicDeadzoneEnabled then
      getDynamicDeadzone c.analyzerSpeed base
        cfg.dynamicDeadzoneMinFactor cfg.dynamicDeadzoneMaxFactor
    else base

/-- `ChakramController.get_current_sector`: effective-deadzone test, then
the predicted-sector override, then the standard first-match scan. -/
def getCurrentSector (cfg : Config) (c : Ctrl) (angle distance : ℚ) :
    Option String :=
  let effectiveDeadzone := getEffectiveDeadzone cfg c
  if distance < effectiveDeadzone then none
  else if cfg.adaptiveEnabled ∧ cfg.predictionEnabled ∧
      c.predictedSector.isSome ∧
      c.predictionConfidence > cfg.predictionConfidenceThreshold then
    c.predictedSector
  else
    sectorLookup cfg.sectors angle

/-- `ChakramController.get_current_state` (ignores its `angle` argument,
uses the static `DEADZONE`). -/
def getCurrentState (cfg : Config) (sector : Option String)
    (distance : ℚ) : Option String :=
  if distance < cfg.deadzone then some "neutral"
  else if sector = none then some "neutral"
  else some "attack"

/-- `ChakramController.press_key` on its success path: refuse attack keys
in alt mode, otherwise press the key iff it is not already held. -/
def pressKey (cfg : Config) (altModeActive : Bool)
    (pressed : List String) (k : String) : List String × List Event :=
  if altModeActive ∧ k ∈ attackKeys cfg then (pressed, [])
  else if k ∈ pressed then (pressed, [])
  else (pressed ++ [k], [Event.keyDown k])

/-- `ChakramController.release_key` on its success path: release the key
iff it is currently held. -/
def releaseKey (pressed : List String) (k : String) :
    List String × List Event :=
  if k ∈ pressed then (pressed.erase k, [Event.keyUp k])
  else (pressed, [])

/-- `ChakramController.release_all_keys` (success path): release every
regular held key once, then the middle mouse button if held, then clear
the set. -/
def releaseAllKeys (pressed : List String) : List String × List Event :=
  if pressed = [] then (pressed, [])
  else
    let regularKeys := pressed.filter (fun k => k ≠ "middle_mouse")
    let evs := regularKeys.map Event.keyUp
    let evs :=
      if "middle_mouse" ∈ pressed then evs ++ [Event.keyUp "middle_mouse"]
      else evs
    ([], evs)

/-- `win_input.send_sector_change` (Windows-API branch, success path).
Both the keyboard-cancel and the middle-mouse-cancel variants press and
release the same cancel identifier, so they share one trace; the
`release_delay` parameter is accepted but never consulted by this branch
of the source, which always sleeps a fixed 10ms after pressing cancel and
again before pressing the new attack key. -/
def sendSectorChange (cancelKey oldAttackKey newAttackKey : String)
    (_releaseDelay : ℚ) : List Event :=
  [Event.keyDown cancelKey, Event.sleep (1/100), Event.keyUp oldAttackKey,
   Event.keyUp cancelKey, Event.sleep (1/100), Event.keyDown newAttackKey]

/-- `ChakramController._enqueue_sector_change`: re-check the deadzone and
abort (releasing the old key) if the stick returned to it, otherwise emit
press(cancel), release(old), 10ms sleep, release(cancel), press(new) and
clear the in-progress flag. -/
def enqueueSectorChange (cfg : Config) (c : Ctrl) (distance : ℚ)
    (oldSector newSector : String) : Ctrl × List Event :=
  let cancelKey := keyOf cfg "cancel"
  let oldAttackKey := keyOf cfg oldSector
  let newAttackKey := keyOf cfg newSector
  if distance < cfg.deadzone then
    let c := { c with sectorChangeInProgress := false }
    if oldAttackKey ∈ c.pressedKeys then
      let (p, ev) := releaseKey c.pressedKeys oldAttackKey
      ({ c with pressedKeys := p }, ev)
    else (c, [])
  else
    let (p1, e1) := pressKey cfg c.altModeActive c.pressedKeys cancelKey
    let (p2, e2) :=
      if oldAttackKey ∈ p1 then releaseKey p1 oldAttackKey else (p1, [])
    let e3 := [Event.sleep (1/100)]
    let (p3, e4) := releaseKey p2 cancelKey
    let (p4, e5) := pressKey cfg c.altModeActive p3 newAttackKey
    ({ c with pressedKeys := p4, sectorChangeInProgress := false },
     e1 ++ e2 ++ e3 ++ e4 ++ e5)

/-- `ChakramController.move_cursor_in_direction`: lookup-table cursor
nudge (unknown sectors move nothing). -/
def moveCursorInDirection (offset : ℚ) (sector : String) : List Event :=
  let d : ℚ × ℚ :=
    if sector = "right" then (offset, 0)
    else if sector = "left" then (-offset, 0)
    else if sector = "overhead" then (0, -offset)
    else if sector = "thrust" then (0, offset)
    else (0, 0)
  if d.1 = 0 ∧ d.2 = 0 then [] else [Event.mouseMove d.1 d.2]

/-- `ChakramController.exit_alt_mode`. -/
def exitAltMode (c : Ctrl) : Ctrl × List Event :=
  if c.altModeRightMouseDown then
    ({ c with altModeRightMouseDown := false, altModeCurrentSector := none },
     [Event.keyUp "right_mouse"])
  else ({ c with altModeCurrentSector := none }, [])

/-- `ChakramController.handle_alt_mode` (second definition; cursor offset
`ALT_MODE_CURSOR_OFFSET` is passed in as `offset`). -/
def handleAltMode (cfg : Config) (offset : ℚ) (c : Ctrl)
    (angle distance : ℚ) : Ctrl × List Event :=
  let altModeDeadzone := cfg.deadzone * (8/10)
  let newSector :=
    if distance < altModeDeadzone then none
    else sectorLookup cfg.sectors angle
  if distance < altModeDeadzone then
    if c.altModeRightMouseDown then
      ({ c with altModeRightMouseDown := false,
                altModeCurrentSector := none },
       [Event.keyUp "right_mouse"])
    else ({ c with altModeCurrentSector := none }, [])
  else
    match newSector with
    | some s =>
        if c.altModeCurrentSector.isSome ∧ c.altModeCurrentSector ≠ some s
        then
          let e1 :=
            if c.altModeRightMouseDown then [Event.keyUp "right_mouse"]
            else []
          let e2 := moveCursorInDirection offset s
          ({ c with altModeRightMouseDown := true,
                    altModeCurrentSector := some s },
           e1 ++ e2 ++ [Event.keyDown "right_mouse"])
        else if c.altModeCurrentSector = none then
          let e2 := moveCursorInDirection offset s
          ({ c with altModeRightMouseDown := true,
                    altModeCurrentSector := some s },
           e2 ++ [Event.keyDown "right_mouse"])
        else ({ c with altModeCurrentSector := some s }, [])
    | none => (c, [])

/-- `ChakramController.calculate_movement_speed`, tracked as a squared
speed (the source divides `sqrt(dx**2+dy**2)` by `Δt`; the square is the
faithful rational image and the value is only ever compared against a
nonnegative threshold, which the embedding squares accordingly). -/
def calculateMovementSpeedSq (pos1 pos2 : ℚ × ℚ) (time1 time2 : ℚ) : ℚ :=
  if time2 = time1 then 0
  else ((pos2.1 - pos1.1)^2 + (pos2.2 - pos1.2)^2) / (time2 - time1)^2

/-- One controller tick's sampled input.  `angle`/`distance` are the polar
image of `pos` that `get_joystick_angle_and_distance` computes with
`atan2`/`sqrt` (degrees normalized to `[0,360)`, distance capped at 1). -/
structure JoySample where
  pos : ℚ × ℚ
  angle : ℚ
  distance : ℚ
deriving DecidableEq, Repr

/-- External inputs of one `update` call.  `device = none` models
`self.joystick is None` (no device): `get_joystick_position` then returns
`(0, 0)`, whose polar image is exactly `angle = 0, distance = 0`. -/
structure TickInput where
  now : ℚ
  device : Option JoySample
  altKeyPressed : Bool
  cancelButtonPressed : Bool
deriving DecidableEq, Repr

/-- The sample `update` actually works with: the device sample, or the
origin when no device is available. -/
def sampleOf (device : Option JoySample) : JoySample :=
  device.getD ⟨(0, 0), 0, 0⟩

/-- `self.sector_change_timeout` (hard-coded 0.2s in `__init__`). -/
def sectorChangeTimeout : ℚ := 1/5

/-- `ChakramController.update` (the second, effective definition at lines
1245-1497), as a state-and-trace step function.  `offset` is
`ALT_MODE_CURSOR_OFFSET` for the alt-mode branch. -/
def update (cfg : Config) (offset : ℚ) (c : Ctrl) (inp : TickInput) :
    Ctrl × List Event :=
  let now := inp.now
  let timeSinceLastUpdate := now - c.lastUpdateTime
  let c := { c with lastUpdateTime := now }
  -- alt mode activation / deactivation
  let (c, evAlt) :=
    if inp.altKeyPressed ∧ ¬c.altModeKeyPressed then
      let (p, ev) := releaseAllKeys c.pressedKeys
      ({ c with altModeActive := true, altModeKeyPressed := true,
                pressedKeys := p, sectorChangeInProgress := false }, ev)
    else if ¬inp.altKeyPressed ∧ c.altModeKeyPressed then
      let (c2, ev) :=
        exitAltMode { c with altModeActive := false,
                             altModeKeyPressed := false }
      ({ c2 with sectorChangeInProgress := false }, ev)
    else (c, [])
  let s := sampleOf inp.device
  let pos := s.pos
  let wasInDeadzone := c.inDeadzone
  let inDz := s.distance < cfg.deadzone
  let c := { c with inDeadzone := inDz }
  let movementSpeedSq :=
    calculateMovementSpeedSq c.lastPosition pos c.lastPositionTime now
  let c := if inDz then { c with deadzoneSpeedSq := movementSpeedSq } else c
  -- just entered the deadzone
  let c :=
    if inDz ∧ ¬wasInDeadzone then
      let c := { c with deadzoneEntryTime := now,
                        sectorChangeInProgress := false }
      if c.currentSector.isSome then
        { c with lastActiveSector := c.currentSector }
      else c
    else c
  -- in the deadzone long enough: release the attack keys
  let (c, evRel) :=
    if inDz ∧ now - c.deadzoneEntryTime ≥ cfg.deadzoneTimeThreshold ∧
        c.pressedKeys ≠ [] then
      let (p, ev) := releaseAllKeys c.pressedKeys
      ({ c with pressedKeys := p, currentSector := none,
                currentState := some "neutral" }, ev)
    else (c, [])
  -- just exited the deadzone: change-through-deadzone shortcut
  let (c, evExit) :=
    if ¬inDz ∧ wasInDeadzone then
      let c := { c with sectorChangeInProgress := false }
      let ns := getCurrentSector cfg c s.angle s.distance
      match ns, c.lastActiveSector with
      | some n, some la =>
          if n ≠ la then
            let c := { c with sectorChangeInProgress := true,
                              lastSectorChangeTime := now }
            let (c, ev) := enqueueSectorChange cfg c s.distance la n
            ({ c with currentSector := some n }, ev)
          else (c, [])
      | _, _ => (c, [])
    else (c, [])
  if c.altModeActive then
    let (c, evAm) := handleAltMode cfg offset c s.angle s.distance
    ({ c with lastPosition := pos, lastPositionTime := now },
     evAlt ++ evRel ++ evExit ++ evAm)
  else
  -- standard mode processing
  let newSector := getCurrentSector cfg c s.angle s.distance
  let newState := getCurrentState cfg newSector s.distance
  let quickMovement := c.deadzoneSpeedSq > cfg.deadzoneSpeedThreshold ^ 2
  if c.sectorChangeInProgress ∧ ¬(timeSinceLastUpdate > sectorChangeTimeout)
  then
    ({ c with lastPosition := pos, lastPositionTime := now },
     evAlt ++ evRel ++ evExit)
  else
  let c :=
    if c.sectorChangeInProgress then
      { c with sectorChangeInProgress := false }
    else c
  -- cancel button (joystick button 0)
  let (c, cancelPressed, evBtn) :=
    if inp.device.isSome ∧ inp.cancelButtonPressed then
      let cancelKey := keyOf cfg "cancel"
      let (p1, e1) := pressKey cfg c.altModeActive c.pressedKeys cancelKey
      let e2 := [Event.sleep (5/100)]
      let (p2, e3) := releaseKey p1 cancelKey
      let c := { c with pressedKeys := p2 }
      let (c, e4) :=
        if c.currentState = some "attack" ∧ c.currentSector.isSome then
          let attackKey := keyOf cfg (c.currentSector.getD "")
          if attackKey ∈ c.pressedKeys then
            let (p, ev) := releaseKey c.pressedKeys attackKey
            ({ c with pressedKeys := p }, ev)
          else (c, [])
        else (c, [])
      (c, true, e1 ++ e2 ++ e3 ++ e4)
    else (c, false, [])
  -- sector / state changes
  let (c, evChg) :=
    if ¬cancelPressed ∧ newSector ≠ c.currentSector then
      match c.currentSector, newSector with
      | some a, some b =>
          if quickMovement ∧ wasInDeadzone then
            let cancelKey := keyOf cfg "cancel"
            let oldAttackKey := keyOf cfg a
            let newAttackKey := keyOf cfg b
            let ev := sendSectorChange cancelKey oldAttackKey newAttackKey 0
            let p :=
              if oldAttackKey ∈ c.pressedKeys then
                c.pressedKeys.erase oldAttackKey
              else c.pressedKeys
            let p := if newAttackKey ∈ p then p else p ++ [newAttackKey]
            ({ c with pressedKeys := p, lastSectorChangeTime := 0 }, ev)
          else
            let c := { c with sectorChangeInProgress := true,
                              lastSectorChangeTime := now }
            enqueueSectorChange cfg c s.distance a b
      | _, _ =>
          if newState = some "attack" ∧ newSector.isSome then
            let (p, ev) := pressKey cfg c.altModeActive c.pressedKeys
              (keyOf cfg (newSector.getD ""))
            ({ c with pressedKeys := p }, ev)
          else (c, [])
    else if newState ≠ c.currentState then
      if newState = some "attack" ∧ newSector.isSome then
        let (p, ev) := pressKey cfg c.altModeActive c.pressedKeys
          (keyOf cfg (newSector.getD ""))
        ({ c with pressedKeys := p }, ev)
      else (c, [])
    else (c, [])
  let c := { c with currentSector := newSector, currentState := newState,
                    lastPosition := pos, lastPositionTime := now }
  (c, evAlt ++ evRel ++ evExit ++ evBtn ++ evChg)

/-- `ChakramController.stop` (thread shutdown omitted; the key side
effects are the release-all and the alt-mode cleanup). -/
def stop (c : Ctrl) : Ctrl × List Event :=
  let (p, ev1) := releaseAllKeys c.pressedKeys
  let c := { c with pressedKeys := p }
  if c.altModeActive then
    let (c2, ev2) := exitAltMode c
    (c2, ev1 ++ ev2)
  else (c, ev1)

/-- The three states of the `MouseAxes` aim cycle
(`STATE_IDLE` / `STATE_AIMING` / `STATE_COOLDOWN`). -/
inductive AimState where
  | idle
  | aiming
  | cooldown
deriving DecidableEq, Repr

/-- Constructor arguments of `MouseAxes.__init__` (with the sector and
key-mapping tables it imports from `config`). -/
structure MouseCfg where
  scale : ℚ
  pointerLock : Bool
  lockCenter : Bool
  invertY : Bool
  attackOnModifierRelease : Bool
  aimModifierSet : Bool
  aimRequiresMovement : Bool
  aimDirectionMemoryMs : ℚ
  attackPressDurationMs : ℚ
  postAttackCooldownMs : ℚ
  blockWhileHeld : Bool
  blockKey : Option String
  deadzone : ℚ
  sectors : List (String × SectorRange)
  keyMappings : List (String × String)
deriving DecidableEq, Repr

/-- The `MouseAxes` configuration built from the `config.py` defaults
(`aim_modifier = "alt"`, so `aimModifierSet = true`). -/
def defaultMouseCfg : MouseCfg where
  scale := 20
  pointerLock := true
  lockCenter := true
  invertY := false
  attackOnModifierRelease := true
  aimModifierSet := true
  aimRequiresMovement := true
  aimDirectionMemoryMs := 250
  attackPressDurationMs := 50
  postAttackCooldownMs := 200
  blockWhileHeld := true
  blockKey := some "right_mouse"
  deadzone := 15/100
  sectors := defaultSectors
  keyMappings := defaultKeyMappings

/-- Runtime state of `MouseAxes`. -/
structure Aim where
  anchor : Option (ℚ × ℚ)
  state : AimState
  lastSector : Option String
  lastSectorTs : ℚ
  cooldownUntilTs : ℚ
  prevModPressed : Bool
  blockPressed : Bool
deriving DecidableEq, Repr

/-- External inputs of one `MouseAxes.get_axes` call.  `aimAngle` is the
degrees-normalized `atan2` of the clamped, scaled displacement that
`_determine_sector` computes (supplied as an input since it has no
rational closed form); `rawModPressed` / `otherModPressed` abstract the
pygame key/button queries of `_is_modifier_pressed`. -/
structure AimInput where
  cur : ℚ × ℚ
  nowMs : ℚ
  rawModPressed : Bool
  otherModPressed : Bool
  aimAngle : ℚ
deriving DecidableEq, Repr

/-- `MouseAxes._determine_sector` in terms of the scaled displacement
`(x, y)` and its polar angle: the source compares
`sqrt(x*x + y*y) < DEADZONE`, which (for the nonnegative configured
deadzone) is the squared comparison below. -/
def determineSector (mcfg : MouseCfg) (x y angle : ℚ) : Option String :=
  if x ^ 2 + y ^ 2 < mcfg.deadzone ^ 2 then none
  else sectorLookup mcfg.sectors angle

/-- `MouseAxes._press_block` (success path). -/
def pressBlock (mcfg : MouseCfg) (m : Aim) : Aim × List Event :=
  match mcfg.blockKey with
  | none => (m, [])
  | some k => ({ m with blockPressed := true }, [Event.keyDown k])

/-- `MouseAxes._release_block` (success path). -/
def releaseBlock (mcfg : MouseCfg) (m : Aim) : Aim × List Event :=
  match mcfg.blockKey with
  | none => (m, [])
  | some k =>
      if m.blockPressed then
        ({ m with blockPressed := false }, [Event.keyUp k])
      else (m, [])

/-- The anchor/pointer-lock bookkeeping shared by all exits of
`get_axes` (cursor warping itself is external output, not key traffic,
so only the anchor update is modelled). -/
def anchorUpdate (mcfg : MouseCfg) (m : Aim) (anchor : ℚ × ℚ)
    (dx dy : ℚ) (cur : ℚ × ℚ) : Aim :=
  if mcfg.pointerLock then
    if ¬mcfg.lockCenter then
      { m with anchor := some (anchor.1 + dx, anchor.2 + dy) }
    else { m with anchor := some anchor }
  else { m with anchor := some cur }

/-- Clamp to the normalized axis range `[-1, 1]`. -/
def clampAxis (v : ℚ) : ℚ := max (-1) (min 1 v)

/-- `MouseAxes.get_axes` as a state-and-trace step function, returning the
new state, the produced axis pair and the emitted OS events. -/
def getAxes (mcfg : MouseCfg) (m : Aim) (inp : AimInput) :
    Aim × (ℚ × ℚ) × List Event :=
  match m.anchor with
  | none => ({ m with anchor := some inp.cur }, (0, 0), [])
  | some anchor =>
    let nowMs := inp.nowMs
    let m :=
      if m.state = AimState.cooldown ∧ nowMs ≥ m.cooldownUntilTs then
        { m with state := AimState.idle }
      else m
    let modPressed := if mcfg.aimModifierSet then inp.rawModPressed else false
    let justReleased := m.prevModPressed ∧ ¬modPressed
    let dx := inp.cur.1 - anchor.1
    let dy := inp.cur.2 - anchor.2
    if inp.otherModPressed then
      let m := anchorUpdate mcfg m anchor dx dy inp.cur
      ({ m with prevModPressed := modPressed, lastSector := none,
                state := AimState.idle }, (0, 0), [])
    else if modPressed ∧ m.state ≠ AimState.cooldown then
      let m :=
        if m.state = AimState.idle then { m with state := AimState.aiming }
        else m
      let dy := if mcfg.invertY then -dy else dy
      let x := clampAxis (dx / mcfg.scale)
      let y := clampAxis (dy / mcfg.scale)
      let sector := determineSector mcfg x y inp.aimAngle
      let m :=
        match sector with
        | some s => { m with lastSector := some s, lastSectorTs := nowMs }
        | none => m
      let (m, evB) :=
        if mcfg.blockWhileHeld ∧ ¬m.blockPressed then pressBlock mcfg m
        else (m, [])
      let m := anchorUpdate mcfg m anchor dx dy inp.cur
      ({ m with prevModPressed := modPressed }, (0, 0), evB)
    else
      let (m, evRel) :=
        if justReleased then
          let (m, evB) :=
            if mcfg.blockWhileHeld then releaseBlock mcfg m else (m, [])
          let (m, evA) :=
            if mcfg.attackOnModifierRelease ∧ m.state = AimState.aiming then
              let valid :=
                if mcfg.aimRequiresMovement then
                  decide (m.lastSector.isSome = true) &&
                  decide (nowMs - m.lastSectorTs ≤ mcfg.aimDirectionMemoryMs)
                else true
              if valid ∧ m.lastSector.isSome then
                match (mcfg.keyMappings.find?
                    (fun p => p.1 = m.lastSector.getD "")).map Prod.snd with
                | some attackKey =>
                    ({ m with cooldownUntilTs :=
                                nowMs + mcfg.postAttackCooldownMs,
                              state := AimState.cooldown },
                     [Event.keyDown attackKey,
                      Event.sleep (mcfg.attackPressDurationMs / 1000),
                      Event.keyUp attackKey])
                | none => (m, [])
              else (m, [])
            else (m, [])
          let m := { m with lastSector := none, lastSectorTs := 0 }
          let m :=
            if m.state ≠ AimState.cooldown then
              { m with state := AimState.idle }
            else m
          (m, evB ++ evA)
        else (m, [])
      let m := anchorUpdate mcfg m anchor dx dy inp.cur
      let dy := if mcfg.invertY then -dy else dy
      let x := clampAxis (dx / mcfg.scale)
      let y := clampAxis (dy / mcfg.scale)
      ({ m with prevModPressed := modPressed }, (x, y), evRel)

/-- The controller state right after `ChakramController.__init__`
(timestamps that the source initializes with `time.time()` are 0 here;
note `combat_mode_active` is forced to `True` by the constructor). -/
def initCtrl : Ctrl where
  currentSector := none
  currentState := none
  pressedKeys := []
  sectorChangeInProgress := false
  lastSectorChangeTime := 0
  lastPosition := (0, 0)
  lastPositionTime := 0
  inDeadzone := false
  deadzoneEntryTime := 0
  deadzoneSpeedSq := 0
  lastActiveSector := none
  altModeActive := false
  altModeKeyPressed := false
  altModeCurrentSector := none
  altModeRightMouseDown := false
  combatModeActive := true
  predictedSector := none
  predictionConfidence := 0
  detectorCombat := false
  analyzerSpeed := 0
  lastUpdateTime := 0

/-! ### Helper lemmas -/

lemma sectorLookup_eq_find (sectors : List (String × SectorRange))
    (angle : ℚ) :
    sectorLookup sectors angle =
      (sectors.find? (fun p => angleInRange angle p.2)).map Prod.fst := by
  induction sectors with
  | nil => rfl
  | cons hd tl ih =>
      obtain ⟨name, r⟩ := hd
      by_cases h : angleInRange angle r
      · simp [sectorLookup, h, List.find?]
      · simp only [sectorLookup, h, if_false]
        rw [ih]
        simp [List.find?, h]

lemma countReleases_append (k : String) (l1 l2 : List Event) :
    countReleases k (l1 ++ l2) =
      countReleases k l1 + countReleases k l2 := by
  simp [countReleases, List.filter_append]

lemma countReleases_map_keyUp (k : String) (l : List String) :
    countReleases k (l.map Event.keyUp) = l.count k := by
  induction l with
  | nil => rfl
  | cons hd tl ih =>
      by_cases h : hd = k
      · subst h
        simp only [List.map_cons, countReleases, List.filter_cons,
          List.count_cons] at ih ⊢
        simp [ih]
      · simp only [List.map_cons, countReleases, List.filter_cons,
          List.count_cons] at ih ⊢
        simp [ih, h, Event.keyUp.injEq]

lemma releaseAllKeys_fst (p : List String) : (releaseAllKeys p).1 = [] := by
  by_cases h : p = [] <;> simp [releaseAllKeys, h]

lemma countReleases_releaseAllKeys (p : List String) (hp : p.Nodup)
    (k : String) :
    countReleases k (releaseAllKeys p).2 = if k ∈ p then 1 else 0 := by
  by_cases h : p = []
  · subst h; simp [releaseAllKeys, countReleases]
  · simp only [releaseAllKeys, h, if_false]
    by_cases hmm : "middle_mouse" ∈ p
    · simp only [hmm, if_pos]
      rw [countReleases_append, countReleases_map_keyUp]
      by_cases hk : k = "middle_mouse"
      · subst hk
        have h0 : List.count "middle_mouse"
            (p.filter (fun x => x ≠ "middle_mouse")) = 0 := by
          rw [List.count_eq_zero]
          intro hmem
          have := List.of_mem_filter hmem
          simp at this
        simp only [ne_eq, decide_not] at h0 ⊢
        simp [h0, countReleases, hmm]
      · have h1 : countReleases k [Event.keyUp "middle_mouse"] = 0 := by
          simp [countReleases, Event.keyUp.injEq, Ne.symm hk]
        rw [h1]
        have : List.count k (p.filter (fun x => x ≠ "middle_mouse")) =
            List.count k p := by
          rw [List.count_filter]
          simp [hk]
        rw [this]
        by_cases hkp : k ∈ p
        · simp [hkp, List.count_eq_one_of_mem hp hkp]
        · simp [hkp, List.count_eq_zero_of_not_mem hkp]
    · simp only [hmm, if_false]
      rw [countReleases_map_keyUp]
      have hfil : p.filter (fun x => x ≠ "middle_mouse") = p := by
        apply List.filter_eq_self.mpr
        intro a ha
        simp only [ne_eq, decide_eq_true_eq]
        intro hEq; exact hmm (hEq ▸ ha)
      rw [hfil]
      by_cases hkp : k ∈ p
      · simp [hkp, List.count_eq_one_of_mem hp hkp]
      · simp [hkp, List.count_eq_zero_of_not_mem hkp]

lemma getDynamicDeadzone_anti (base minFactor maxFactor s1 s2 : ℚ)
    (hb : 0 ≤ base) (hmf : minFactor ≤ maxFactor) (h1 : 1/2 ≤ s1)
    (h12 : s1 ≤ s2) :
    getDynamicDeadzone s2 base minFactor maxFactor ≤
      getDynamicDeadzone s1 base minFactor maxFactor := by
  have hΔ : (0:ℚ) ≤ maxFactor - minFactor := by linarith
  have hn1 : ¬s1 < 1/2 := not_lt.mpr h1
  have hn2 : ¬s2 < 1/2 := not_lt.mpr (le_trans h1 h12)
  simp only [getDynamicDeadzone]
  rw [if_neg hn1, if_neg hn2]
  by_cases hg1 : s1 > 2
  · have hg2 : s2 > 2 := lt_of_lt_of_le hg1 h12
    rw [if_pos hg1, if_pos hg2]
  · rw [if_neg hg1]
    have hs1le : s1 ≤ 2 := not_lt.mp hg1
    have ht1 : (s1 - 1/2) / (3/2) ≤ 1 := by
      rw [div_le_one (by norm_num)]
      linarith
    by_cases hg2 : s2 > 2
    · rw [if_pos hg2]
      have hfac : minFactor ≤
          maxFactor - (s1 - 1/2) / (3/2) * (maxFactor - minFactor) := by
        nlinarith [mul_le_mul_of_nonneg_right ht1 hΔ]
      exact mul_le_mul_of_nonneg_left hfac hb
    · rw [if_neg hg2]
      have hd : (s1 - 1/2) / (3/2) ≤ (s2 - 1/2) / (3/2) := by
        gcongr
      have hfac :
          maxFactor - (s2 - 1/2) / (3/2) * (maxFactor - minFactor) ≤
          maxFactor - (s1 - 1/2) / (3/2) * (maxFactor - minFactor) := by
        nlinarith [mul_le_mul_of_nonneg_right hd hΔ]
      exact mul_le_mul_of_nonneg_left hfac hb

/-! ### Claim C2 -/

/-- Claim C2: classification returns `none` whenever `distance < deadzone`;
otherwise the first matching sector definition in configuration order wins,
where a definition with `start > end` wraps through 0° and matches iff
`angle ≥ start` or `angle ≤ end`; concretely, a sector with `start = 315`
and `end = 45` classifies 350° and 10° as members and does not classify
180°. -/
theorem claim_C2_classification :
    (∀ (sectors : List (String × SectorRange))
       (angle distance deadzone : ℚ),
      distance < deadzone →
      classify sectors angle distance deadzone = none) ∧
    (∀ (sectors : List (String × SectorRange))
       (angle distance deadzone : ℚ),
      ¬distance < deadzone →
      classify sectors angle distance deadzone =
        (sectors.find? (fun p => angleInRange angle p.2)).map Prod.fst) ∧
    (∀ (angle : ℚ) (r : SectorRange), r.startDeg > r.endDeg →
      (angleInRange angle r = true ↔
        angle ≥ r.startDeg ∨ angle ≤ r.endDeg)) ∧
    (∀ (angle : ℚ) (r : SectorRange), ¬r.startDeg > r.endDeg →
      (angleInRange angle r = true ↔
        r.startDeg ≤ angle ∧ angle ≤ r.endDeg)) ∧
    (angleInRange 350 ⟨315, 45⟩ = true ∧
     angleInRange 10 ⟨315, 45⟩ = true ∧
     angleInRange 180 ⟨315, 45⟩ = false ∧
     classify [("N", ⟨315, 45⟩)] 350 1 (15/100) = some "N" ∧
     classify [("N", ⟨315, 45⟩)] 10 1 (15/100) = some "N" ∧
     classify [("N", ⟨315, 45⟩)] 180 1 (15/100) = none) := by
  refine ⟨?_, ?_, ?_, ?_, ?_⟩
  · intro sectors angle distance deadzone h
    simp [classify, h]
  · intro sectors angle distance deadzone h
    simp [classify, h, sectorLookup_eq_find]
  · intro angle r h
    simp [angleInRange, h]
  · intro angle r h
    simp [angleInRange, h]
  · refine ⟨?_, ?_, ?_, ?_, ?_, ?_⟩ <;>
      norm_num [angleInRange, classify, sectorLookup]

/-- Witness for claim C2 at concrete inputs. -/
theorem claim_C2_witness :
    classify defaultSectors 0 (1/10) (15/100) = none ∧
    classify defaultSectors 0 1 (15/100) =
      (defaultSectors.find? (fun p => angleInRange 0 p.2)).map Prod.fst :=
  ⟨claim_C2_classification.1 defaultSectors 0 (1/10) (15/100) (by norm_num),
   claim_C2_classification.2.1 defaultSectors 0 1 (15/100) (by norm_num)⟩

/-! ### Claim C8 -/

/-- Claim C8: the dynamic deadzone factor is `max_factor` below speed 0.5,
`min_factor` above speed 2.0, and the linear interpolation between them on
`[0.5, 2.0]`; consequently (dynamic mode on, `min_factor < max_factor`,
nonnegative bases) the effective deadzone is non-increasing in speed for
speeds at least 0.5. -/
theorem claim_C8_dynamic_deadzone :
    (∀ speed baseDz minF maxF : ℚ, speed < 1/2 →
      getDynamicDeadzone speed baseDz minF maxF = baseDz * maxF) ∧
    (∀ speed baseDz minF maxF : ℚ, speed > 2 →
      getDynamicDeadzone speed baseDz minF maxF = baseDz * minF) ∧
    (∀ speed baseDz minF maxF : ℚ, ¬speed < 1/2 → ¬speed > 2 →
      getDynamicDeadzone speed baseDz minF maxF =
        baseDz * (maxF - (speed - 1/2) / (3/2) * (maxF - minF))) ∧
    (∀ (cfg : Config) (c : Ctrl) (s1 s2 : ℚ),
      cfg.adaptiveEnabled = true → cfg.dynamicDeadzoneEnabled = true →
      cfg.dynamicDeadzoneMinFactor < cfg.dynamicDeadzoneMaxFactor →
      0 ≤ cfg.deadzone → 0 ≤ cfg.combatModeDeadzone →
      1/2 ≤ s1 → s1 ≤ s2 →
      getEffectiveDeadzone cfg { c with analyzerSpeed := s2 } ≤
        getEffectiveDeadzone cfg { c with analyzerSpeed := s1 }) := by
  refine ⟨?_, ?_, ?_, ?_⟩
  · intro speed baseDz minF maxF h
    unfold getDynamicDeadzone
    rw [if_pos h]
  · intro speed baseDz minF maxF h
    have h2 : ¬speed < 1/2 := by linarith
    unfold getDynamicDeadzone
    rw [if_neg h2, if_pos h]
  · intro speed baseDz minF maxF h1 h2
    unfold getDynamicDeadzone
    rw [if_neg h1, if_neg h2]
  · intro cfg c s1 s2 ha hd hmf hdz hcdz h1 h12
    simp only [getEffectiveDeadzone, ha, hd, not_true, or_self, if_false,
      Bool.not_true]
    simp only [if_true]
    apply getDynamicDeadzone_anti
    · unfold getOptimalDeadzone
      split_ifs <;> assumption
    · exact le_of_lt hmf
    · exact h1
    · exact h12

/-- A configuration with dynamic deadzone enabled and distinct factors,
used to instantiate claim C8. -/
def cfgDyn : Config :=
  { defaultConfig with dynamicDeadzoneEnabled := true,
                       dynamicDeadzoneMinFactor := 1/2,
                       dynamicDeadzoneMaxFactor := 2 }

/-- Witness for claim C8 at concrete speeds 1 and 3. -/
theorem claim_C8_witness :
    getEffectiveDeadzone cfgDyn { initCtrl with analyzerSpeed := 3 } ≤
      getEffectiveDeadzone cfgDyn { initCtrl with analyzerSpeed := 1 } :=
  claim_C8_dynamic_deadzone.2.2.2 cfgDyn initCtrl 1 3
    (by norm_num [cfgDyn, defaultConfig]) (by norm_num [cfgDyn, defaultConfig])
    (by norm_num [cfgDyn, defaultConfig]) (by norm_num [cfgDyn, defaultConfig])
    (by norm_num [cfgDyn, defaultConfig]) (by norm_num) (by norm_num)

/-! ### Claim C5 -/

/-- The effective-deadzone formula exactly as claim C5 words it (static
base, combat swap when the detector reports combat, dynamic factor when
dynamic adjustment is enabled, with the short-circuit only when
`adaptive_enabled` is false); defined solely to compare against
`getEffectiveDeadzone`. -/
def claimedEffectiveDeadzone (cfg : Config) (c : Ctrl) : ℚ :=
  if ¬cfg.adaptiveEnabled then cfg.deadzone
  else
    let base :=
      if c.detectorCombat then cfg.combatModeDeadzone else cfg.deadzone
    if cfg.dynamicDeadzoneEnabled then
      getDynamicDeadzone c.analyzerSpeed base cfg.dynamicDeadzoneMinFactor
        cfg.dynamicDeadzoneMaxFactor
    else base

/-- Counterexample to claim C5: with the default configuration
(`adaptive_enabled = True`, `dynamic_deadzone_enabled = False`) and the
detector reporting combat, the code returns the static base 0.15 while the
claimed override order yields the combat deadzone 0.1 — the short-circuit
also fires when dynamic deadzone adjustment is disabled, not only when
adaptive mode is disabled. -/
theorem claim_C5_cex :
    getEffectiveDeadzone defaultConfig
        { initCtrl with detectorCombat := true } = 15/100 ∧
    claimedEffectiveDeadzone defaultConfig
        { initCtrl with detectorCombat := true } = 1/10 ∧
    getEffectiveDeadzone defaultConfig
        { initCtrl with detectorCombat := true } ≠
      claimedEffectiveDeadzone defaultConfig
        { initCtrl with detectorCombat := true } := by
  refine ⟨?_, ?_, ?_⟩ <;>
    norm_num [getEffectiveDeadzone, claimedEffectiveDeadzone,
      defaultConfig, initCtrl]

/-- The effective-deadzone formula as amended by the counterexample: the
static-base short-circuit fires when adaptive mode OR dynamic deadzone
adjustment is disabled; with both enabled the base is swapped to the
combat deadzone when the combat-mode flag is active or (with game-state
detection enabled) the detector reports combat, and the dynamic factor is
then applied. -/
def amendedEffectiveDeadzone (cfg : Config) (c : Ctrl) : ℚ :=
  if ¬cfg.adaptiveEnabled ∨ ¬cfg.dynamicDeadzoneEnabled then cfg.deadzone
  else
    let base :=
      if (cfg.gameStateDetectionEnabled ∧ c.detectorCombat) ∨
          c.combatModeActive then
        cfg.combatModeDeadzone
      else cfg.deadzone
    getDynamicDeadzone c.analyzerSpeed base cfg.dynamicDeadzoneMinFactor
      cfg.dynamicDeadzoneMaxFactor

/-- Claim C5 as amended: `get_effective_deadzone` equals the amended
formula on every configuration and controller state. -/
theorem claim_C5_amended : ∀ (cfg : Config) (c : Ctrl),
    getEffectiveDeadzone cfg c = amendedEffectiveDeadzone cfg c := by
  intro cfg c
  unfold getEffectiveDeadzone amendedEffectiveDeadzone getOptimalDeadzone
  by_cases ha : cfg.adaptiveEnabled <;>
    by_cases hd : cfg.dynamicDeadzoneEnabled <;>
      by_cases hg : cfg.gameStateDetectionEnabled <;>
        by_cases hc : c.detectorCombat <;>
          by_cases hm : c.combatModeActive <;>
            simp [ha, hd, hg, hc, hm]

/-! ### Claim C10 -/

/-- Claim C10: in `get_current_sector` the effective-deadzone test comes
first — inputs inside the effective deadzone classify as `none` no matter
what the prediction state says — and only outside the deadzone does a
high-confidence predicted sector replace the angle-based result. -/
theorem claim_C10_deadzone_precedes_prediction :
    (∀ (cfg : Config) (c : Ctrl) (angle distance : ℚ),
      distance < getEffectiveDeadzone cfg c →
      getCurrentSector cfg c angle distance = none) ∧
    (∀ (cfg : Config) (c : Ctrl) (angle distance : ℚ) (p : String),
      ¬distance < getEffectiveDeadzone cfg c →
      cfg.adaptiveEnabled = true → cfg.predictionEnabled = true →
      c.predictedSector = some p →
      c.predictionConfidence > cfg.predictionConfidenceThreshold →
      getCurrentSector cfg c angle distance = some p) := by
  constructor
  · intro cfg c angle distance h
    simp only [getCurrentSector]
    rw [if_pos h]
  · intro cfg c angle distance p h ha hp hps hc
    simp only [getCurrentSector]
    rw [if_neg h, if_pos ⟨by simp [ha], by simp [hp], by simp [hps], hc⟩]
    exact hps

/-- A controller state holding a maximally-confident prediction of the
`thrust` sector, used to instantiate claim C10. -/
def c10State : Ctrl :=
  { initCtrl with predictedSector := some "thrust",
                  predictionConfidence := 1 }

/-- Witness for claim C10: inside the deadzone the confident prediction is
ignored; outside it, the prediction overrides the angle (0° lies in the
`right` sector, yet `thrust` is returned). -/
theorem claim_C10_witness :
    getCurrentSector defaultConfig c10State 90 (1/100) = none ∧
    getCurrentSector defaultConfig c10State 0 1 = some "thrust" :=
  ⟨claim_C10_deadzone_precedes_prediction.1 defaultConfig c10State 90 (1/100)
     (by norm_num [getEffectiveDeadzone, defaultConfig, c10State, initCtrl]),
   claim_C10_deadzone_precedes_prediction.2 defaultConfig c10State 0 1
     "thrust"
     (by norm_num [getEffectiveDeadzone, defaultConfig, c10State, initCtrl])
     rfl rfl rfl
     (by norm_num [defaultConfig, c10State, initCtrl])⟩

/-! ### Claim C7 -/

/-- Claim C7: releasing all held keys is idempotent — a second invocation
emits nothing, no key is released twice within one invocation — and on
controller stop every held key is released exactly once (given the
source's invariant that the alt-mode right-mouse bookkeeping never aliases
a held key). -/
theorem claim_C7_release_all_idempotent :
    (∀ p : List String, (releaseAllKeys (releaseAllKeys p).1).2 = []) ∧
    (∀ p : List String, p.Nodup →
      (∀ k ∈ p, countReleases k (releaseAllKeys p).2 = 1) ∧
      (∀ k, countReleases k (releaseAllKeys p).2 ≤ 1)) ∧
    (∀ c : Ctrl, c.pressedKeys.Nodup →
      (c.altModeRightMouseDown = true → "right_mouse" ∉ c.pressedKeys) →
      ∀ k ∈ c.pressedKeys, countReleases k (stop c).2 = 1) := by
  refine ⟨?_, ?_, ?_⟩
  · intro p
    rw [releaseAllKeys_fst]
    rfl
  · intro p hp
    constructor
    · intro k hk
      rw [countReleases_releaseAllKeys p hp k, if_pos hk]
    · intro k
      rw [countReleases_releaseAllKeys p hp k]
      split_ifs <;> omega
  · intro c hnd hrm k hk
    have h1 : countReleases k (releaseAllKeys c.pressedKeys).2 = 1 := by
      rw [countReleases_releaseAllKeys _ hnd k, if_pos hk]
    rcases hra : releaseAllKeys c.pressedKeys with ⟨p', ev1⟩
    rw [hra] at h1
    simp only [stop, hra]
    by_cases halt : c.altModeActive
    · simp only [halt, if_true]
      by_cases hr : c.altModeRightMouseDown
      · have hkne : k ≠ "right_mouse" := by
          intro hkeq
          exact hrm hr (hkeq ▸ hk)
        simp only [exitAltMode, hr, if_true]
        rw [countReleases_append, h1]
        simp [countReleases, Event.keyUp.injEq, Ne.symm hkne]
      · simp only [exitAltMode, hr, if_false]
        rw [countReleases_append, h1]
        rfl
    · simp only [halt, if_false]
      exact h1

/-- A controller state holding two attack keys, with alt mode active and
the right-mouse flag down, used to instantiate claim C7. -/
def c7State : Ctrl :=
  { initCtrl with pressedKeys := ["left", "middle_mouse"],
                  altModeActive := true,
                  altModeRightMouseDown := true }

/-- Witness for claim C7 at a concrete two-key state. -/
theorem claim_C7_witness :
    countReleases "left" (releaseAllKeys ["left", "middle_mouse"]).2 = 1 ∧
    countReleases "left" (stop c7State).2 = 1 ∧
    countReleases "middle_mouse" (stop c7State).2 = 1 :=
  ⟨(claim_C7_release_all_idempotent.2.1 ["left", "middle_mouse"]
      (by decide)).1 "left" (by decide),
   claim_C7_release_all_idempotent.2.2 c7State (by decide) (by decide)
     "left" (by decide),
   claim_C7_release_all_idempotent.2.2 c7State (by decide) (by decide)
     "middle_mouse" (by decide)⟩

/-! ### Claim C1 -/

/-- Claim C1: for a transition from an active sector `a` (its key held)
to a different sector `b`, both the per-step sequencer
(`_enqueue_sector_change`) and the batched OS call (`send_sector_change`)
emit the key actions in exactly the order press(cancel), release(key(a)),
release(cancel), press(key(b)); in particular press(key(b)) never precedes
release(key(a)). -/
theorem claim_C1_sector_change_order :
    ∀ (cfg : Config) (c : Ctrl) (distance : ℚ) (a b : String),
      ¬distance < cfg.deadzone →
      c.altModeActive = false →
      keyOf cfg a ∈ c.pressedKeys →
      keyOf cfg "cancel" ∉ c.pressedKeys →
      keyOf cfg b ∉ c.pressedKeys →
      keyOf cfg a ≠ keyOf cfg "cancel" →
      keyOf cfg b ≠ keyOf cfg "cancel" →
      ((enqueueSectorChange cfg c distance a b).2.filter Event.isKey =
        [Event.keyDown (keyOf cfg "cancel"), Event.keyUp (keyOf cfg a),
         Event.keyUp (keyOf cfg "cancel"), Event.keyDown (keyOf cfg b)]) ∧
      ((sendSectorChange (keyOf cfg "cancel") (keyOf cfg a) (keyOf cfg b)
          0).filter Event.isKey =
        [Event.keyDown (keyOf cfg "cancel"), Event.keyUp (keyOf cfg a),
         Event.keyUp (keyOf cfg "cancel"), Event.keyDown (keyOf cfg b)]) := by
  intro cfg c distance a b hdist halt hak hck hbk hac hbc
  constructor
  · have hck1 : keyOf cfg "cancel" ∈ c.pressedKeys ++ [keyOf cfg "cancel"] := by
      simp
    have hak1 : keyOf cfg a ∈ c.pressedKeys ++ [keyOf cfg "cancel"] := by
      simp [hak]
    have hck2 : keyOf cfg "cancel" ∈
        (c.pressedKeys ++ [keyOf cfg "cancel"]).erase (keyOf cfg a) := by
      rw [List.mem_erase_of_ne (Ne.symm hac)]
      exact hck1
    have hbk2 : keyOf cfg b ∉
        ((c.pressedKeys ++ [keyOf cfg "cancel"]).erase
          (keyOf cfg a)).erase (keyOf cfg "cancel") := by
      intro hmem
      have h1 := List.mem_of_mem_erase hmem
      have h2 := List.mem_of_mem_erase h1
      rcases List.mem_append.mp h2 with h3 | h3
      · exact hbk h3
      · simp at h3
        exact hbc h3
    simp only [enqueueSectorChange]
    rw [if_neg hdist]
    simp [pressKey, releaseKey, halt, hck, hak1, hck2, hbk2, Event.isKey]
  · rfl

/-- A controller state holding the `left` attack key, used to instantiate
claim C1. -/
def c1State : Ctrl := { initCtrl with pressedKeys := ["left"] }

/-- Witness for claim C1 at the default configuration, transitioning from
`left` to `right` at full distance. -/
theorem claim_C1_witness :
    (enqueueSectorChange defaultConfig c1State 1 "left" "right").2.filter
        Event.isKey =
      [Event.keyDown (keyOf defaultConfig "cancel"),
       Event.keyUp (keyOf defaultConfig "left"),
       Event.keyUp (keyOf defaultConfig "cancel"),
       Event.keyDown (keyOf defaultConfig "right")] :=
  (claim_C1_sector_change_order defaultConfig c1State 1 "left" "right"
    (by norm_num [defaultConfig]) (by decide) (by decide) (by decide)
    (by decide) (by decide) (by decide)).1

/-! ### Claim C3 -/

/-- A controller state one tick after a quick flick through the deadzone:
`left` is active and held, the previous tick was inside the deadzone with
a high recorded deadzone speed, and the sector active before entering the
deadzone was `right`. -/
def c3State : Ctrl :=
  { initCtrl with currentSector := some "left",
                  currentState := some "attack",
                  pressedKeys := ["left"],
                  inDeadzone := true,
                  deadzoneSpeedSq := 100,
                  lastActiveSector := some "right",
                  lastUpdateTime := 9/10 }

/-- The tick input that lands in the `right` sector at full deflection. -/
def c3Input : TickInput :=
  { now := 1, device := some ⟨(1, 0), 0, 1⟩, altKeyPressed := false,
    cancelButtonPressed := false }

/-- Counterexample to claim C3: on the atomic quick-movement path the
emitted batch still contains two fixed 10ms settle sleeps — one between
press(cancel) and release(old key) and one before press(new key) — so the
four steps are not emitted "with no settle delay between steps". -/
theorem claim_C3_cex :
    (update defaultConfig 20 c3State c3Input).2 =
      [Event.keyDown "middle_mouse", Event.sleep (1/100),
       Event.keyUp "left", Event.keyUp "middle_mouse",
       Event.sleep (1/100), Event.keyDown "right"] ∧
    Event.sleep (1/100) ∈ (update defaultConfig 20 c3State c3Input).2 := by
  constructor <;>
    norm_num +decide [update, sampleOf, defaultConfig, c3State, c3Input,
      initCtrl, getCurrentSector, getEffectiveDeadzone, getCurrentState,
      sectorLookup, angleInRange, keyOf, sendSectorChange, pressKey,
      releaseKey, releaseAllKeys, calculateMovementSpeedSq,
      sectorChangeTimeout, defaultSectors, defaultKeyMappings, attackKeys,
      getOptimalDeadzone, getDynamicDeadzone, enqueueSectorChange,
      List.find?]

/-- Claim C3 as amended: on a tick whose classified sector changes from
active `a` to `b` with quick movement and the previous tick inside the
deadzone, the whole emitted trace is the single `send_sector_change`
batch — the four key actions in the claimed order, but with the two fixed
10ms sleeps the call hard-codes — and the inter-transition cooldown timer
is reset to zero. -/
theorem claim_C3_amended :
    ∀ (offset : ℚ) (c : Ctrl) (inp : TickInput) (s : JoySample)
      (a b : String),
      inp.device = some s →
      inp.altKeyPressed = false →
      inp.cancelButtonPressed = false →
      c.altModeKeyPressed = false →
      c.altModeActive = false →
      c.inDeadzone = true →
      ¬s.distance < (15/100 : ℚ) →
      c.currentSector = some a →
      c.predictedSector = none →
      sectorLookup defaultSectors s.angle = some b →
      c.lastActiveSector = some b →
      a ≠ b →
      c.deadzoneSpeedSq > ((5/100 : ℚ)) ^ 2 →
      (update defaultConfig offset c inp).2 =
        sendSectorChange (keyOf defaultConfig "cancel")
          (keyOf defaultConfig a) (keyOf defaultConfig b) 0 ∧
      ((update defaultConfig offset c inp).2.filter Event.isKey =
        [Event.keyDown (keyOf defaultConfig "cancel"),
         Event.keyUp (keyOf defaultConfig a),
         Event.keyUp (keyOf defaultConfig "cancel"),
         Event.keyDown (keyOf defaultConfig b)]) ∧
      (update defaultConfig offset c inp).1.lastSectorChangeTime = 0 := by
  intro offset c inp s a b hdev halt1 hbtn halt2 halt3 hwas hdist hcur
    hpred hlook hla hab hquick
  obtain ⟨now, dev, akp, cbp⟩ := inp
  obtain ⟨pos, angle, dist⟩ := s
  simp only [TickInput.device] at hdev
  simp only [TickInput.altKeyPressed] at halt1
  simp only [TickInput.cancelButtonPressed] at hbtn
  simp only [JoySample.distance] at hdist
  simp only [JoySample.angle] at hlook
  subst hdev halt1 hbtn
  have hsec : some b ≠ some a := by
    intro h
    exact hab (Option.some_injective _ h).symm
  simp only [update, sampleOf, Option.getD_some, defaultConfig,
    getCurrentSector, getEffectiveDeadzone, getCurrentState,
    sectorChangeTimeout, halt2, halt3, hwas, hdist, hcur, hpred, hlook,
    hla, hquick, hsec]
  simp [hdist, hcur, hsec, hwas, halt3, hquick, Event.isKey,
    sendSectorChange]

/-- Witness for the amended claim C3 at the concrete quick-flick state. -/
theorem claim_C3_witness :
    (update defaultConfig 20 c3State c3Input).2 =
      sendSectorChange (keyOf defaultConfig "cancel")
        (keyOf defaultConfig "left") (keyOf defaultConfig "right") 0 ∧
    ((update defaultConfig 20 c3State c3Input).2.filter Event.isKey =
      [Event.keyDown (keyOf defaultConfig "cancel"),
       Event.keyUp (keyOf defaultConfig "left"),
       Event.keyUp (keyOf defaultConfig "cancel"),
       Event.keyDown (keyOf defaultConfig "right")]) ∧
    (update defaultConfig 20 c3State c3Input).1.lastSectorChangeTime = 0 :=
  claim_C3_amended 20 c3State c3Input ⟨(1, 0), 0, 1⟩ "left" "right"
    rfl rfl rfl rfl rfl rfl (by norm_num) rfl rfl (by decide) rfl
    (by decide) (by norm_num [c3State, initCtrl])

/-! ### Claim C4 -/

lemma enqueueSectorChange_flag_false (cfg : Config) (c : Ctrl)
    (distance : ℚ) (a b : String) :
    (enqueueSectorChange cfg c distance a b).1.sectorChangeInProgress =
      false := by
  simp only [enqueueSectorChange]
  split_ifs <;> rfl

/-- A controller state stuck in an in-progress sector change that was
opened at time 0, last updated at time 0.25, with the stick held in the
`right` sector. -/
def c4State : Ctrl :=
  { initCtrl with sectorChangeInProgress := true,
                  lastSectorChangeTime := 0,
                  lastUpdateTime := 1/4,
                  currentSector := some "right",
                  currentState := some "attack",
                  pressedKeys := ["right"] }

/-- A tick at time 0.3: more than the 0.2s timeout after the change
started, but only 0.05s after the previous update call. -/
def c4Input : TickInput :=
  { now := 3/10, device := some ⟨(1, 0), 0, 1⟩, altKeyPressed := false,
    cancelButtonPressed := false }

/-- Counterexample to claim C4: this tick observes
`now - started_t = 0.3 > 0.2 = timeout`, yet the in-progress state is NOT
force-closed — the tick returns early with the flag still set and no
events — because the code compares `now - last_update_time` (the gap
since the previous tick), not `now - started_t`. -/
theorem claim_C4_cex :
    c4Input.now - c4State.lastSectorChangeTime > sectorChangeTimeout ∧
    (update defaultConfig 20 c4State c4Input).1.sectorChangeInProgress =
      true ∧
    (update defaultConfig 20 c4State c4Input).2 = [] := by
  refine ⟨by norm_num [c4Input, c4State, initCtrl, sectorChangeTimeout],
    ?_, ?_⟩ <;>
    norm_num +decide [update, sampleOf, defaultConfig, c4State, c4Input,
      initCtrl, getCurrentSector, getEffectiveDeadzone, getCurrentState,
      sectorLookup, angleInRange, keyOf, sendSectorChange, pressKey,
      releaseKey, releaseAllKeys, calculateMovementSpeedSq,
      sectorChangeTimeout, defaultSectors, defaultKeyMappings, attackKeys,
      getOptimalDeadzone, getDynamicDeadzone, enqueueSectorChange,
      List.find?]

set_option maxHeartbeats 1000000 in
/-- Claim C4 as amended: the stuck-transition timeout compares the gap
since the previous `update` call against 0.2s, not the age of the open
change.  A tick whose gap exceeds the timeout clears the in-progress flag
and keeps processing; a tick arriving sooner (outside the deadzone, with
no deadzone crossing) returns early with the flag still set and no
events, regardless of how long ago the change started. -/
theorem claim_C4_amended :
    (∀ (offset : ℚ) (c : Ctrl) (inp : TickInput) (s : JoySample)
       (a : String),
      inp.device = some s →
      inp.altKeyPressed = false →
      inp.cancelButtonPressed = false →
      c.altModeKeyPressed = false →
      c.altModeActive = false →
      c.inDeadzone = false →
      ¬s.distance < (15/100 : ℚ) →
      c.predictedSector = none →
      c.currentSector = some a →
      sectorLookup defaultSectors s.angle = some a →
      c.currentState = some "attack" →
      inp.now - c.lastUpdateTime > sectorChangeTimeout →
      (update defaultConfig offset c inp).1.sectorChangeInProgress =
        false ∧
      (update defaultConfig offset c inp).2 = []) ∧
    (∀ (offset : ℚ) (c : Ctrl) (inp : TickInput) (s : JoySample),
      inp.device = some s →
      inp.altKeyPressed = false → c.altModeKeyPressed = false →
      c.altModeActive = false →
      c.sectorChangeInProgress = true →
      c.inDeadzone = false →
      ¬s.distance < (15/100 : ℚ) →
      ¬inp.now - c.lastUpdateTime > sectorChangeTimeout →
      (update defaultConfig offset c inp).1.sectorChangeInProgress =
        true ∧
      (update defaultConfig offset c inp).2 = []) := by
  constructor
  · intro offset c inp s a hdev halt1 hbtn halt2 halt3 hwas hdist hpred
      hcs hlook hst ht
    obtain ⟨now, dev, akp, cbp⟩ := inp
    obtain ⟨pos, angle, dist⟩ := s
    simp only [TickInput.device] at hdev
    simp only [TickInput.altKeyPressed] at halt1
    simp only [TickInput.cancelButtonPressed] at hbtn
    simp only [TickInput.now] at ht
    simp only [JoySample.distance] at hdist
    simp only [JoySample.angle] at hlook
    subst hdev halt1 hbtn
    have ht2 : ¬now ≤ 5⁻¹ + c.lastUpdateTime := by
      simp only [sectorChangeTimeout] at ht
      rw [not_le]
      have h5 : (5:ℚ)⁻¹ = 1/5 := by norm_num
      rw [h5]
      linarith
    rcases hf : c.sectorChangeInProgress with _ | _ <;>
      simp only [update, sampleOf, Option.getD_some, defaultConfig,
        getCurrentSector, getEffectiveDeadzone, getCurrentState,
        sectorChangeTimeout, halt2, halt3, hwas, hdist, hpred, hcs, hlook,
        hst, ht, hf] <;>
      simp [hdist, hwas, halt3, ht2, hf, hcs, hlook, hst]
  · intro offset c inp s hdev halt1 halt2 halt3 hflag hwas hdist ht
    obtain ⟨now, dev, akp, cbp⟩ := inp
    obtain ⟨pos, angle, dist⟩ := s
    simp only [TickInput.device] at hdev
    simp only [TickInput.altKeyPressed] at halt1
    simp only [TickInput.now] at ht
    simp only [JoySample.distance] at hdist
    subst hdev halt1
    have ht2 : now ≤ 5⁻¹ + c.lastUpdateTime := by
      simp only [sectorChangeTimeout, not_lt] at ht
      have h5 : (5:ℚ)⁻¹ = 1/5 := by norm_num
      rw [h5]
      linarith
    simp only [update, sampleOf, Option.getD_some, defaultConfig,
      getCurrentSector, getEffectiveDeadzone, getCurrentState,
      sectorChangeTimeout, halt2, halt3, hflag, hwas, hdist]
    simp [hdist, hwas, hflag, ht2]

/-- A stuck in-progress state whose previous update was long ago (gap
above the 0.2s timeout), holding steady in the `right` sector. -/
def c4fState : Ctrl :=
  { initCtrl with sectorChangeInProgress := true,
                  currentSector := some "right",
                  currentState := some "attack",
                  lastUpdateTime := 0 }

/-- A tick one second after the previous update. -/
def c4fInput : TickInput :=
  { now := 1, device := some ⟨(1, 0), 0, 1⟩, altKeyPressed := false,
    cancelButtonPressed := false }

/-- Witness for the amended claim C4: a tick with a gap above the timeout
clears the flag; a tick with a small gap returns early with it set. -/
theorem claim_C4_witness :
    ((update defaultConfig 20 c4fState c4fInput).1.sectorChangeInProgress =
        false ∧
      (update defaultConfig 20 c4fState c4fInput).2 = []) ∧
    ((update defaultConfig 20 c4State c4Input).1.sectorChangeInProgress =
        true ∧
      (update defaultConfig 20 c4State c4Input).2 = []) :=
  ⟨claim_C4_amended.1 20 c4fState c4fInput ⟨(1, 0), 0, 1⟩ "right"
      rfl rfl rfl rfl rfl rfl (by norm_num) rfl rfl (by decide) rfl
      (by norm_num [c4fInput, c4fState, initCtrl, sectorChangeTimeout]),
   claim_C4_amended.2 20 c4State c4Input ⟨(1, 0), 0, 1⟩
      rfl rfl rfl rfl rfl rfl (by norm_num)
      (by norm_num [c4Input, c4State, initCtrl, sectorChangeTimeout])⟩

/-! ### Claim C6 -/

/-- A state holding the `left` attack key that has been inside the
deadzone since time 0. -/
def c6State : Ctrl :=
  { initCtrl with pressedKeys := ["left"],
                  inDeadzone := true,
                  deadzoneEntryTime := 0,
                  currentSector := some "left",
                  currentState := some "attack" }

/-- A tick at time 1 with no device available (`self.joystick is None`). -/
def c6Input : TickInput :=
  { now := 1, device := none, altKeyPressed := false,
    cancelButtonPressed := false }

/-- Counterexample to claim C6: with the input unavailable the tick is NOT
skipped — `get_joystick_position` returns `(0, 0)` instead of `None`, the
origin sample is processed as a real in-deadzone sample, and the held
attack key is released and the transition state changed. -/
theorem claim_C6_cex :
    (update defaultConfig 20 c6State c6Input).2 = [Event.keyUp "left"] ∧
    (update defaultConfig 20 c6State c6Input).1.pressedKeys = [] ∧
    (update defaultConfig 20 c6State c6Input).1.currentSector ≠
      c6State.currentSector := by
  refine ⟨?_, ?_, ?_⟩ <;>
    norm_num +decide [update, sampleOf, defaultConfig, c6State, c6Input,
      initCtrl, getCurrentSector, getEffectiveDeadzone, getCurrentState,
      sectorLookup, angleInRange, keyOf, sendSectorChange, pressKey,
      releaseKey, releaseAllKeys, calculateMovementSpeedSq,
      sectorChangeTimeout, defaultSectors, defaultKeyMappings, attackKeys,
      getOptimalDeadzone, getDynamicDeadzone, enqueueSectorChange,
      List.find?]

set_option maxHeartbeats 1000000 in
/-- Claim C6 as amended: when the device is unavailable the sampler
yields the origin `(0, 0)` (never `None`) and the tick is processed
normally: the origin lies inside the deadzone, and once the deadzone time
threshold has elapsed every held key is released and the state is forced
to neutral. -/
theorem claim_C6_amended :
    ∀ (offset now : ℚ) (c : Ctrl),
      c.altModeKeyPressed = false →
      c.altModeActive = false →
      c.inDeadzone = true →
      now - c.deadzoneEntryTime ≥ (5/100 : ℚ) →
      c.pressedKeys ≠ [] →
      (update defaultConfig offset c
          ⟨now, none, false, false⟩).2 =
        (releaseAllKeys c.pressedKeys).2 ∧
      (update defaultConfig offset c
          ⟨now, none, false, false⟩).1.pressedKeys = [] ∧
      (update defaultConfig offset c
          ⟨now, none, false, false⟩).1.currentSector = none := by
  intro offset now c halt2 halt3 hwas hthr hne
  rcases hf : c.sectorChangeInProgress with _ | _ <;>
    simp only [update, sampleOf, Option.getD_none, defaultConfig,
      getCurrentSector, getEffectiveDeadzone, getCurrentState,
      sectorChangeTimeout, halt2, halt3, hwas, hthr, hne, hf] <;>
    simp [hwas, halt3, hthr, hne, hf, releaseAllKeys_fst] <;>
    split_ifs <;>
      simp_all [releaseAllKeys_fst]

/-- Witness for the amended claim C6 at the concrete held-key state. -/
theorem claim_C6_witness :
    (update defaultConfig 20 c6State c6Input).2 =
      (releaseAllKeys c6State.pressedKeys).2 ∧
    (update defaultConfig 20 c6State c6Input).1.pressedKeys = [] ∧
    (update defaultConfig 20 c6State c6Input).1.currentSector = none :=
  claim_C6_amended 20 1 c6State rfl rfl rfl (by norm_num [c6State, initCtrl])
    (by decide)

/-! ### Claim C9 -/

lemma anchorUpdate_state (mcfg : MouseCfg) (m : Aim) (a : ℚ × ℚ)
    (dx dy : ℚ) (cur : ℚ × ℚ) :
    (anchorUpdate mcfg m a dx dy cur).state = m.state := by
  unfold anchorUpdate
  split_ifs <;> rfl

lemma anchorUpdate_lastSector (mcfg : MouseCfg) (m : Aim) (a : ℚ × ℚ)
    (dx dy : ℚ) (cur : ℚ × ℚ) :
    (anchorUpdate mcfg m a dx dy cur).lastSector = m.lastSector := by
  unfold anchorUpdate
  split_ifs <;> rfl

lemma anchorUpdate_lastSectorTs (mcfg : MouseCfg) (m : Aim) (a : ℚ × ℚ)
    (dx dy : ℚ) (cur : ℚ × ℚ) :
    (anchorUpdate mcfg m a dx dy cur).lastSectorTs = m.lastSectorTs := by
  unfold anchorUpdate
  split_ifs <;> rfl

lemma anchorUpdate_cooldownUntilTs (mcfg : MouseCfg) (m : Aim)
    (a : ℚ × ℚ) (dx dy : ℚ) (cur : ℚ × ℚ) :
    (anchorUpdate mcfg m a dx dy cur).cooldownUntilTs =
      m.cooldownUntilTs := by
  unfold anchorUpdate
  split_ifs <;> rfl

lemma pressBlock_fst_state (mcfg : MouseCfg) (m : Aim) :
    (pressBlock mcfg m).1.state = m.state := by
  unfold pressBlock
  cases mcfg.blockKey <;> rfl

lemma pressBlock_fst_lastSector (mcfg : MouseCfg) (m : Aim) :
    (pressBlock mcfg m).1.lastSector = m.lastSector := by
  unfold pressBlock
  cases mcfg.blockKey <;> rfl

lemma pressBlock_fst_lastSectorTs (mcfg : MouseCfg) (m : Aim) :
    (pressBlock mcfg m).1.lastSectorTs = m.lastSectorTs := by
  unfold pressBlock
  cases mcfg.blockKey <;> rfl

lemma releaseBlock_not_pressed (mcfg : MouseCfg) (m : Aim)
    (h : m.blockPressed = false) : releaseBlock mcfg m = (m, []) := by
  unfold releaseBlock
  cases mcfg.blockKey <;> simp [h]

lemma releaseBlock_no_keyDown (mcfg : MouseCfg) (m : Aim) (k : String) :
    Event.keyDown k ∉ (releaseBlock mcfg m).2 := by
  unfold releaseBlock
  cases mcfg.blockKey with
  | none => simp
  | some bk =>
      by_cases h : m.blockPressed = true <;> simp [h]

lemma releaseBlock_fst_state (mcfg : MouseCfg) (m : Aim) :
    (releaseBlock mcfg m).1.state = m.state := by
  unfold releaseBlock
  cases mcfg.blockKey with
  | none => rfl
  | some bk =>
      by_cases h : m.blockPressed = true <;> simp [h]

set_option maxHeartbeats 4000000 in
/-- Claim C9: in aim mode (a) while the modifier is held, each classified
sector is remembered with its timestamp and kept when motion stops;
(b) releasing the modifier in `Aiming` with a remembered sector no older
than the direction-memory window fires exactly one timed
press(hold)release of that sector's key and enters `Cooldown` until
`now + cooldown`; (c) a release whose memory is older than the window
fires nothing; and (d) while `Cooldown` is pending no step enters
`Aiming` and no key is pressed. -/
theorem claim_C9_aim_cycle :
    (∀ (mcfg : MouseCfg) (m : Aim) (inp : AimInput) (anc : ℚ × ℚ)
       (sec : String),
      m.anchor = some anc →
      mcfg.aimModifierSet = true →
      inp.rawModPressed = true →
      inp.otherModPressed = false →
      m.state = AimState.aiming →
      determineSector mcfg
          (clampAxis ((inp.cur.1 - anc.1) / mcfg.scale))
          (clampAxis
            ((if mcfg.invertY then -(inp.cur.2 - anc.2)
              else inp.cur.2 - anc.2) / mcfg.scale))
          inp.aimAngle = some sec →
      (getAxes mcfg m inp).1.lastSector = some sec ∧
      (getAxes mcfg m inp).1.lastSectorTs = inp.nowMs) ∧
    (∀ (mcfg : MouseCfg) (m : Aim) (inp : AimInput) (anc : ℚ × ℚ),
      m.anchor = some anc →
      mcfg.aimModifierSet = true →
      inp.rawModPressed = true →
      inp.otherModPressed = false →
      m.state = AimState.aiming →
      determineSector mcfg
          (clampAxis ((inp.cur.1 - anc.1) / mcfg.scale))
          (clampAxis
            ((if mcfg.invertY then -(inp.cur.2 - anc.2)
              else inp.cur.2 - anc.2) / mcfg.scale))
          inp.aimAngle = none →
      (getAxes mcfg m inp).1.lastSector = m.lastSector ∧
      (getAxes mcfg m inp).1.lastSectorTs = m.lastSectorTs) ∧
    (∀ (mcfg : MouseCfg) (m : Aim) (inp : AimInput) (anc : ℚ × ℚ)
       (sec attackKey : String),
      m.anchor = some anc →
      mcfg.aimModifierSet = true →
      mcfg.attackOnModifierRelease = true →
      mcfg.aimRequiresMovement = true →
      m.blockPressed = false →
      m.state = AimState.aiming →
      m.prevModPressed = true →
      inp.rawModPressed = false →
      inp.otherModPressed = false →
      m.lastSector = some sec →
      inp.nowMs - m.lastSectorTs ≤ mcfg.aimDirectionMemoryMs →
      (mcfg.keyMappings.find? (fun p => p.1 = sec)).map Prod.snd =
        some attackKey →
      (getAxes mcfg m inp).2.2 =
        [Event.keyDown attackKey,
         Event.sleep (mcfg.attackPressDurationMs / 1000),
         Event.keyUp attackKey] ∧
      (getAxes mcfg m inp).1.state = AimState.cooldown ∧
      (getAxes mcfg m inp).1.cooldownUntilTs =
        inp.nowMs + mcfg.postAttackCooldownMs ∧
      (getAxes mcfg m inp).1.lastSector = none) ∧
    (∀ (mcfg : MouseCfg) (m : Aim) (inp : AimInput) (anc : ℚ × ℚ),
      m.anchor = some anc →
      mcfg.aimModifierSet = true →
      mcfg.aimRequiresMovement = true →
      m.blockPressed = false →
      m.state = AimState.aiming →
      m.prevModPressed = true →
      inp.rawModPressed = false →
      inp.otherModPressed = false →
      ¬inp.nowMs - m.lastSectorTs ≤ mcfg.aimDirectionMemoryMs →
      (getAxes mcfg m inp).2.2 = [] ∧
      (getAxes mcfg m inp).1.state = AimState.idle) ∧
    (∀ (mcfg : MouseCfg) (m : Aim) (inp : AimInput) (anc : ℚ × ℚ),
      m.anchor = some anc →
      inp.otherModPressed = false →
      m.state = AimState.cooldown →
      inp.nowMs < m.cooldownUntilTs →
      (getAxes mcfg m inp).1.state ≠ AimState.aiming ∧
      ∀ k, Event.keyDown k ∉ (getAxes mcfg m inp).2.2) := by
  refine ⟨?_, ?_, ?_, ?_, ?_⟩
  · intro mcfg m inp anc sec hanc hmod hraw hother hst hdet
    obtain ⟨anchor, st, lastSec, lastTs, cdUntil, prevMod, blockP⟩ := m
    obtain ⟨cur, nowMs, rawMod, otherMod, aimAngle⟩ := inp
    simp only [Aim.anchor, Aim.state] at hanc hst
    simp only [AimInput.rawModPressed,
      AimInput.otherModPressed] at hraw hother
    simp only [AimInput.cur, AimInput.aimAngle] at hdet
    simp only [neg_sub] at hdet
    subst hanc hraw hother hst
    simp [getAxes, hmod, hdet, apply_ite, anchorUpdate_lastSector,
      anchorUpdate_lastSectorTs, pressBlock_fst_lastSector,
      pressBlock_fst_lastSectorTs]
  · intro mcfg m inp anc hanc hmod hraw hother hst hdet
    obtain ⟨anchor, st, lastSec, lastTs, cdUntil, prevMod, blockP⟩ := m
    obtain ⟨cur, nowMs, rawMod, otherMod, aimAngle⟩ := inp
    simp only [Aim.anchor, Aim.state] at hanc hst
    simp only [AimInput.rawModPressed,
      AimInput.otherModPressed] at hraw hother
    simp only [AimInput.cur, AimInput.aimAngle] at hdet
    simp only [neg_sub] at hdet
    subst hanc hraw hother hst
    simp [getAxes, hmod, hdet, apply_ite, anchorUpdate_lastSector,
      anchorUpdate_lastSectorTs, pressBlock_fst_lastSector,
      pressBlock_fst_lastSectorTs]
  · intro mcfg m inp anc sec attackKey hanc hmod hrel hreq hbp hst hprev
      hraw hother hsec hmem hkey
    obtain ⟨anchor, st, lastSec, lastTs, cdUntil, prevMod, blockP⟩ := m
    obtain ⟨cur, nowMs, rawMod, otherMod, aimAngle⟩ := inp
    simp only [Aim.anchor, Aim.state, Aim.blockPressed, Aim.prevModPressed,
      Aim.lastSector, Aim.lastSectorTs] at hanc hst hbp hprev hsec hmem
    simp only [AimInput.rawModPressed, AimInput.otherModPressed,
      AimInput.nowMs] at hraw hother hmem ⊢
    subst hanc hraw hother hst hbp hprev hsec
    simp [getAxes, Option.getD_some, hkey, hmod, hrel, hreq, hmem,
      anchorUpdate_state, anchorUpdate_lastSector,
      anchorUpdate_cooldownUntilTs, releaseBlock_not_pressed]
  · intro mcfg m inp anc hanc hmod hreq hbp hst hprev hraw hother hmem
    obtain ⟨anchor, st, lastSec, lastTs, cdUntil, prevMod, blockP⟩ := m
    obtain ⟨cur, nowMs, rawMod, otherMod, aimAngle⟩ := inp
    simp only [Aim.anchor, Aim.state, Aim.blockPressed,
      Aim.prevModPressed, Aim.lastSectorTs] at hanc hst hbp hprev hmem
    simp only [AimInput.rawModPressed, AimInput.otherModPressed,
      AimInput.nowMs] at hraw hother hmem ⊢
    subst hanc hraw hother hst hbp hprev
    simp [getAxes, hmod, hreq, hmem, anchorUpdate_state,
      anchorUpdate_lastSector, releaseBlock_not_pressed]
  · intro mcfg m inp anc hanc hother hst hcd
    have hcd2 : (m.cooldownUntilTs ≤ inp.nowMs) = False :=
      eq_false (not_le.mpr hcd)
    obtain ⟨anchor, st, lastSec, lastTs, cdUntil, prevMod, blockP⟩ := m
    obtain ⟨cur, nowMs, rawMod, otherMod, aimAngle⟩ := inp
    simp only [Aim.anchor, Aim.state,
      Aim.cooldownUntilTs] at hanc hst hcd2
    simp only [AimInput.otherModPressed, AimInput.nowMs] at hother hcd2
    subst hanc hother hst
    constructor
    · rcases rawMod with _ | _ <;>
        rcases hmods : mcfg.aimModifierSet with _ | _ <;>
          rcases prevMod with _ | _ <;>
            rcases hbw : mcfg.blockWhileHeld with _ | _ <;>
              simp [getAxes, hcd2, hmods, hbw, anchorUpdate_state,
                releaseBlock_fst_state]
    · intro k
      rcases rawMod with _ | _ <;>
        rcases hmods : mcfg.aimModifierSet with _ | _ <;>
          rcases prevMod with _ | _ <;>
            rcases hbw : mcfg.blockWhileHeld with _ | _ <;>
              simp [getAxes, hcd2, hmods, hbw, releaseBlock_no_keyDown,
                releaseBlock_fst_state]

/-- An aiming state remembering the `thrust` sector classified 200ms ago
(within the 250ms default memory window). -/
def c9State : Aim :=
  { anchor := some (100, 100), state := AimState.aiming,
    lastSector := some "thrust", lastSectorTs := 800,
    cooldownUntilTs := 0, prevModPressed := true, blockPressed := false }

/-- The aim-modifier-release input at t = 1000ms with the cursor at the
anchor. -/
def c9Input : AimInput :=
  { cur := (100, 100), nowMs := 1000, rawModPressed := false,
    otherModPressed := false, aimAngle := 90 }

/-- Witness for claim C9: releasing the modifier fires one timed
press/hold/release of the remembered sector's key and enters cooldown
until t + 200ms. -/
theorem claim_C9_witness :
    (getAxes defaultMouseCfg c9State c9Input).2.2 =
      [Event.keyDown "down",
       Event.sleep (defaultMouseCfg.attackPressDurationMs / 1000),
       Event.keyUp "down"] ∧
    (getAxes defaultMouseCfg c9State c9Input).1.state =
      AimState.cooldown ∧
    (getAxes defaultMouseCfg c9State c9Input).1.cooldownUntilTs =
      c9Input.nowMs + defaultMouseCfg.postAttackCooldownMs ∧
    (getAxes defaultMouseCfg c9State c9Input).1.lastSector = none :=
  claim_C9_aim_cycle.2.2.1 defaultMouseCfg c9State c9Input (100, 100)
    "thrust" "down" rfl rfl rfl rfl rfl rfl rfl rfl rfl rfl
    (by norm_num [defaultMouseCfg, c9State, c9Input])
    (by decide)

end Chakram

